import Mathlib

/-!
Shallow embedding of `src/InteractiveTree.tsx` (a three.js / react-three-fiber
scene that morphs a particle cloud between a scattered sphere and a cone-shaped
tree).  JavaScript numbers are modelled as real numbers; the three.js vector,
euler and quaternion operations used by the source are translated from the
three.js implementations.  The instanced-mesh matrix buffer is modelled as a
(position, quaternion, scale) triple per element: the source composes these
into a matrix with `updateMatrix` and reads them back with `decompose`, and
that round trip is the identity on the three components.

A separate small model (`JsNum`) tracks the IEEE special values NaN and
Infinity, which the real-number embedding cannot express; it is used for the
degenerate-geometry claim where the source divides by zero.
-/

namespace InteractiveTree

noncomputable section

open Real

/-- Model of `THREE.Vector3`: three real components. -/
structure Vector3 where
  x : ℝ
  y : ℝ
  z : ℝ

/-- Model of `THREE.Quaternion`: four real components. -/
structure Quaternion where
  x : ℝ
  y : ℝ
  z : ℝ
  w : ℝ

/-- Model of `THREE.Euler` (default rotation order XYZ, as used by the source). -/
structure Euler where
  x : ℝ
  y : ℝ
  z : ℝ

/-- Translation of `THREE.Vector3.lerp(v, alpha)`: each component moves toward `v` by the
fraction `alpha` (`this.x += ( v.x - this.x ) * alpha;` etc.). -/
def Vector3.lerp (a v : Vector3) (alpha : ℝ) : Vector3 :=
  ⟨a.x + (v.x - a.x) * alpha, a.y + (v.y - a.y) * alpha, a.z + (v.z - a.z) * alpha⟩

/-- Translation of `THREE.Vector3.addScalar(s)`. -/
def Vector3.addScalar (a : Vector3) (s : ℝ) : Vector3 :=
  ⟨a.x + s, a.y + s, a.z + s⟩

/-- Translation of `THREE.Vector3.add(v)`. -/
def Vector3.add (a v : Vector3) : Vector3 :=
  ⟨a.x + v.x, a.y + v.y, a.z + v.z⟩

/-- Translation of `THREE.Vector3.distanceTo(v)` = `sqrt(distanceToSquared(v))`. -/
def Vector3.distanceTo (a v : Vector3) : ℝ :=
  Real.sqrt ((a.x - v.x) ^ 2 + (a.y - v.y) ^ 2 + (a.z - v.z) ^ 2)

/-- Translation of `THREE.Quaternion.setFromEuler` for the default order XYZ:
half-angle sines/cosines combined exactly as in three.js. -/
def Quaternion.setFromEuler (e : Euler) : Quaternion :=
  let c1 := Real.cos (e.x / 2)
  let c2 := Real.cos (e.y / 2)
  let c3 := Real.cos (e.z / 2)
  let s1 := Real.sin (e.x / 2)
  let s2 := Real.sin (e.y / 2)
  let s3 := Real.sin (e.z / 2)
  ⟨s1 * c2 * c3 + c1 * s2 * s3,
   c1 * s2 * c3 - s1 * c2 * s3,
   c1 * c2 * s3 + s1 * s2 * c3,
   c1 * c2 * c3 - s1 * s2 * s3⟩

/-- Translation of `THREE.Quaternion.setFromAxisAngle(axis, angle)` (axis assumed normalized,
as in three.js). -/
def Quaternion.setFromAxisAngle (axis : Vector3) (angle : ℝ) : Quaternion :=
  let s := Real.sin (angle / 2)
  ⟨axis.x * s, axis.y * s, axis.z * s, Real.cos (angle / 2)⟩

/-- Translation of `THREE.Quaternion.multiply(q)` = `multiplyQuaternions(this, q)`
(Hamilton product, three.js component formulas). -/
def Quaternion.mul (qa qb : Quaternion) : Quaternion :=
  ⟨qa.x * qb.w + qa.w * qb.x + qa.y * qb.z - qa.z * qb.y,
   qa.y * qb.w + qa.w * qb.y + qa.z * qb.x - qa.x * qb.z,
   qa.z * qb.w + qa.w * qb.z + qa.x * qb.y - qa.y * qb.x,
   qa.w * qb.w - qa.x * qb.x - qa.y * qb.y - qa.z * qb.z⟩

/-- Translation of `THREE.Quaternion.length()`. -/
def Quaternion.len (q : Quaternion) : ℝ :=
  Real.sqrt (q.x ^ 2 + q.y ^ 2 + q.z ^ 2 + q.w ^ 2)

/-- Translation of `THREE.Quaternion.normalize()`: zero length falls back to the identity
quaternion, otherwise divide by the length. -/
def Quaternion.normalize (q : Quaternion) : Quaternion :=
  let l := q.len
  if l = 0 then ⟨0, 0, 0, 1⟩ else ⟨q.x / l, q.y / l, q.z / l, q.w / l⟩

/-- Value of `Number.EPSILON` = 2⁻⁵², the threshold three.js slerp uses for the
nearly-parallel fallback. -/
def NumberEPSILON : ℝ := 2 ^ (-52 : ℤ)

/-- Model of `Math.atan2(y, x)`, modelled as the argument of the complex number
`x + y·i` (the same convention: result in (−π, π], `atan2 0 0 = 0`). -/
def jsAtan2 (y x : ℝ) : ℝ := Complex.arg ⟨x, y⟩

/-- Translation of `THREE.Quaternion.slerp(qb, t)` applied to `qa`: a faithful translation of
the three.js implementation, including the `t = 0` / `t = 1` early returns,
the shortest-path negation of the target, the parallel early return, and the
`Number.EPSILON` linear fallback. -/
def Quaternion.slerp (qa qb : Quaternion) (t : ℝ) : Quaternion :=
  if t = 0 then qa
  else if t = 1 then qb
  else
    let cosHalfTheta0 := qa.w * qb.w + qa.x * qb.x + qa.y * qb.y + qa.z * qb.z
    let qt : Quaternion :=
      if cosHalfTheta0 < 0 then ⟨-qb.x, -qb.y, -qb.z, -qb.w⟩ else qb
    let cosHalfTheta := if cosHalfTheta0 < 0 then -cosHalfTheta0 else cosHalfTheta0
    if 1 ≤ cosHalfTheta then qa
    else
      let sqrSinHalfTheta := 1 - cosHalfTheta * cosHalfTheta
      if sqrSinHalfTheta ≤ NumberEPSILON then
        Quaternion.normalize
          ⟨(1 - t) * qa.x + t * qt.x, (1 - t) * qa.y + t * qt.y,
           (1 - t) * qa.z + t * qt.z, (1 - t) * qa.w + t * qt.w⟩
      else
        let sinHalfTheta := Real.sqrt sqrSinHalfTheta
        let halfTheta := jsAtan2 sinHalfTheta cosHalfTheta
        let ratioA := Real.sin ((1 - t) * halfTheta) / sinHalfTheta
        let ratioB := Real.sin (t * halfTheta) / sinHalfTheta
        ⟨qa.x * ratioA + qt.x * ratioB, qa.y * ratioA + qt.y * ratioB,
         qa.z * ratioA + qt.z * ratioB, qa.w * ratioA + qt.w * ratioB⟩

/-- Model of `Math.cbrt`, restricted to the nonnegative draws `Math.random()` produces
in the source, where it agrees with the real power `x ^ (1/3)`. -/
def jsCbrt (x : ℝ) : ℝ := x ^ ((1 : ℝ) / 3)

-- Configuration constants of the source file.

def PARTICLE_COUNT : ℕ := 3500
def ORNAMENT_COUNT : ℕ := 150
def TREE_HEIGHT : ℝ := 8
def TREE_RADIUS_BASE : ℝ := 3.5
def SCATTER_RADIUS : ℝ := 15

/-- Translation of `randomInSphere(radius)` with its three `Math.random()` draws `u`, `v`,
`w` made explicit (in call order). -/
def randomInSphere (radius u v w : ℝ) : Vector3 :=
  let theta := 2 * π * u
  let phi := Real.arccos (2 * v - 1)
  let r := jsCbrt w * radius
  ⟨r * Real.sin phi * Real.cos theta,
   r * Real.sin phi * Real.sin theta,
   r * Real.cos phi⟩

/-- Translation of `randomInCone(height, radiusBase)` with its three `Math.random()` draws
`uy`, `ut`, `ur` made explicit (in call order: height, angle, radial). -/
def randomInCone (height radiusBase uy ut ur : ℝ) : Vector3 :=
  let y := uy * height
  let rAtHeight := (1 - y / height) * radiusBase
  let theta := ut * π * 2
  let r := Real.sqrt ur * rAtHeight
  ⟨r * Real.cos theta, y, r * Real.sin theta⟩

/-- Translation of `randomOnConeSurface(height, radiusBase)` with its two `Math.random()`
draws `uy`, `ut` made explicit; the radial offset is pinned to the
cross-sectional radius plus the fixed outward offset `0.1`. -/
def randomOnConeSurface (height radiusBase uy ut : ℝ) : Vector3 :=
  let y := uy * height
  let rAtHeight := (1 - y / height) * radiusBase
  let theta := ut * π * 2
  let r := rAtHeight + 0.1
  ⟨r * Real.cos theta, y, r * Real.sin theta⟩

/-- Spec-side definition (from the wording of the spec, for comparison with
`randomInSphere`): the point at spherical coordinates distance `rho`,
azimuth `theta`, inclination `phi` (inclination measured from the z axis,
azimuth in the x-y plane — the axis convention used by the formulas in the source). -/
def sphericalPoint (rho theta phi : ℝ) : Vector3 :=
  ⟨rho * Real.sin phi * Real.cos theta,
   rho * Real.sin phi * Real.sin theta,
   rho * Real.cos phi⟩

-- --- Element Dataset Builder ------------------------------------------------

/-- Model of `THREE.Color`: rgb components in [0,1]. -/
structure Color where
  r : ℝ
  g : ℝ
  b : ℝ

/-- The fixed 3-color ornament palette of the source:
`#ffd700` (gold), `#ff3366` (deep pink/red), `#ffffff` (silver/white). -/
def ornamentPalette : List Color :=
  [⟨1, 215 / 255, 0⟩, ⟨1, 51 / 255, 102 / 255⟩, ⟨1, 1, 1⟩]

/-- Translation of `colors[Math.floor(Math.random() * colors.length)]` with the draw `u`
made explicit (`colors.length = 3`); for `u ∈ [0,1)` the index is in range,
so the out-of-range default is never hit. -/
def ornamentColorDraw (u : ℝ) : Color :=
  ornamentPalette.getD (Int.toNat ⌊u * (ornamentPalette.length : ℝ)⌋) ⟨0, 0, 0⟩

/-- Static per-needle attributes built once by the loop body of `needleData`. -/
structure NeedleData where
  scatterPos : Vector3
  treePos : Vector3
  scatterRot : Euler
  treeRot : Euler
  speed : ℝ

/-- Static per-ornament attributes built once by the loop body of `ornamentData`. -/
structure OrnamentData where
  scatterPos : Vector3
  treePos : Vector3
  color : Color
  scale : ℝ
  speed : ℝ

/-- One iteration of the `needleData` loop, consuming 13 `Math.random()` draws
from the stream `r` starting at `13 * i` (the draw order of the source:
3 for `randomInSphere`, 3 for `randomInCone`, 3 for `treeRot`, 3 for
`scatterRot`, 1 for the speed). -/
def needleDatum (r : ℕ → ℝ) (i : ℕ) : NeedleData :=
  let b := 13 * i
  { scatterPos := randomInSphere SCATTER_RADIUS (r b) (r (b + 1)) (r (b + 2))
    treePos := randomInCone TREE_HEIGHT TREE_RADIUS_BASE (r (b + 3)) (r (b + 4)) (r (b + 5))
    treeRot := ⟨(r (b + 6) - 0.5) * 0.5, r (b + 7) * π * 2, (r (b + 8) - 0.5) * 0.5⟩
    scatterRot := ⟨r (b + 9) * π, r (b + 10) * π, r (b + 11) * π⟩
    speed := 0.02 + r (b + 12) * 0.04 }

/-- One iteration of the `ornamentData` loop, consuming 9 `Math.random()`
draws from the stream `r` starting at `9 * i` (source draw order: 3 for
`randomInSphere`, 2 for `randomOnConeSurface`, 1 for the color, 1 for the
scale, 1 for the speed). -/
def ornamentDatum (r : ℕ → ℝ) (i : ℕ) : OrnamentData :=
  let b := 9 * i
  { scatterPos := randomInSphere SCATTER_RADIUS (r b) (r (b + 1)) (r (b + 2))
    treePos := randomOnConeSurface TREE_HEIGHT TREE_RADIUS_BASE (r (b + 3)) (r (b + 4))
    color := ornamentColorDraw (r (b + 5))
    scale := 0.15 + r (b + 6) * 0.25
    speed := 0.015 + r (b + 7) * 0.03 }

-- --- Per-Frame Interpolation Engine ------------------------------------------

/-- Slot of one element in the instanced-mesh matrix buffer, kept in decomposed
form (the `updateMatrix` / `decompose` round trip of the source is the identity on
these components). -/
structure Transform where
  pos : Vector3
  quat : Quaternion
  scale : Vector3

/-- The needle target position computed each frame (`useFrame`, needle loop):
`treePos` when arranged; `scatterPos.addScalar(Math.sin(time + i) * 0.5)`
(floating motion) when scattered. -/
def needleTargetPos (isTree : Bool) (time : ℝ) (i : ℕ) (d : NeedleData) : Vector3 :=
  let targetPos := if isTree then d.treePos else d.scatterPos
  if isTree then targetPos else targetPos.addScalar (Real.sin (time + i) * 0.5)

/-- The needle target orientation computed each frame: the quaternion of
`treeRot` when arranged; when scattered, the quaternion of `scatterRot`
multiplied by a spin about the vertical axis `(0,1,0)` of angle `time * 0.1`. -/
def needleTargetQuat (isTree : Bool) (time : ℝ) (d : NeedleData) : Quaternion :=
  let targetQuat := Quaternion.setFromEuler (if isTree then d.treeRot else d.scatterRot)
  if isTree then targetQuat
  else targetQuat.mul (Quaternion.setFromAxisAngle ⟨0, 1, 0⟩ (time * 0.1))

/-- Per-frame update of one needle (`useFrame`, lines 128-163): read the
current transform, lerp position toward the target by `speed * 60 * delta`,
slerp orientation toward the target quaternion by the same factor, and set
the scale directly to `1` (arranged) or `0.5` (scattered). -/
def needleStep (isTree : Bool) (time delta : ℝ) (i : ℕ) (d : NeedleData)
    (c : Transform) : Transform :=
  { pos := c.pos.lerp (needleTargetPos isTree time i d) (d.speed * 60 * delta)
    quat := c.quat.slerp (needleTargetQuat isTree time d) (d.speed * 60 * delta)
    scale := if isTree then ⟨1, 1, 1⟩ else ⟨0.5, 0.5, 0.5⟩ }

/-- The ornament target position computed each frame: when arranged,
`treePos` with a vertical bob `Math.sin(time * 2 + i) * 0.05` added to `y`;
when scattered, `treePos`/`scatterPos` plus the floating offset vector
`(sin(time*0.5+i), cos(time*0.3+i), sin(time*0.7+i))`. -/
def ornamentTargetPos (isTree : Bool) (time : ℝ) (i : ℕ) (d : OrnamentData) : Vector3 :=
  let targetPos := if isTree then d.treePos else d.scatterPos
  if isTree then
    ⟨targetPos.x, targetPos.y + Real.sin (time * 2 + i) * 0.05, targetPos.z⟩
  else
    targetPos.add ⟨Real.sin (time * 0.5 + i), Real.cos (time * 0.3 + i),
                   Real.sin (time * 0.7 + i)⟩

/-- Per-frame update of one ornament (`useFrame`, lines 169-196): read the
current transform, lerp position toward the target by `speed * 50 * delta`,
set the rotation directly to the Euler `(0, time * 0.5 + i, 0)` (which
three.js converts to a quaternion on recompose), and leave the decomposed
scale untouched. -/
def ornamentStep (isTree : Bool) (time delta : ℝ) (i : ℕ) (d : OrnamentData)
    (c : Transform) : Transform :=
  { pos := c.pos.lerp (ornamentTargetPos isTree time i d) (d.speed * 50 * delta)
    quat := Quaternion.setFromEuler ⟨0, time * 0.5 + i, 0⟩
    scale := c.scale }

-- --- Scene state and the whole-frame pass -------------------------------------

/-- The immutable per-element static tables produced once by `useMemo`. -/
structure Datasets where
  needleData : Fin PARTICLE_COUNT → NeedleData
  ornamentData : Fin ORNAMENT_COUNT → OrnamentData

/-- The shared buffers the engine writes: one transform per needle, one
transform per ornament, one color per ornament (`instanceColor`). -/
structure SceneState where
  needles : Fin PARTICLE_COUNT → Transform
  ornaments : Fin ORNAMENT_COUNT → Transform
  ornamentColors : Fin ORNAMENT_COUNT → Color

/-- The one-time `useLayoutEffect` setup pass: the shared `dummy` object
starts with position `(0,0,0)` and identity quaternion, so every slot gets
that position and orientation; ornaments get their per-element uniform scale
and their palette color (`setColorAt`), needles get the non-uniform thin
scale `(0.1, 0.4, 0.1)`. -/
def setupState (data : Datasets) : SceneState :=
  { needles := fun _ => ⟨⟨0, 0, 0⟩, ⟨0, 0, 0, 1⟩, ⟨0.1, 0.4, 0.1⟩⟩
    ornaments := fun i =>
      ⟨⟨0, 0, 0⟩, ⟨0, 0, 0, 1⟩,
       ⟨(data.ornamentData i).scale, (data.ornamentData i).scale,
        (data.ornamentData i).scale⟩⟩
    ornamentColors := fun i => (data.ornamentData i).color }

/-- One whole `useFrame` pass: every needle and every ornament is updated
from its own buffer slot; the color buffer is not written ("We set colors in
layout effect, no need here"). -/
def frameStep (data : Datasets) (isTree : Bool) (time delta : ℝ)
    (s : SceneState) : SceneState :=
  { needles := fun i => needleStep isTree time delta i.val (data.needleData i) (s.needles i)
    ornaments := fun i => ornamentStep isTree time delta i.val (data.ornamentData i) (s.ornaments i)
    ornamentColors := s.ornamentColors }

/-- The external inputs of one frame: the polled mode flag
(`treeState === TreeMorphState.TREE_SHAPE`), the elapsed time of the clock, and
the frame delta. -/
structure FrameInput where
  isTree : Bool
  time : ℝ
  delta : ℝ

/-- Run a sequence of frames. -/
def simulate (data : Datasets) (fs : List FrameInput) (s : SceneState) : SceneState :=
  fs.foldl (fun s f => frameStep data f.isTree f.time f.delta s) s

/-- The `useFrame` callback with the ambient `Math.random` stream made
explicit: the callback body contains no call to `Math.random`, so the stream
parameter is unused.  (The dataset builder, by contrast, consumes it.) -/
def frameStepR (rand : ℕ → ℝ) (data : Datasets) (isTree : Bool) (time delta : ℝ)
    (s : SceneState) : SceneState :=
  frameStep data isTree time delta s

-- --- IEEE special-value model for the degenerate-geometry analysis -----------

/-- A JavaScript number as the real embedding cannot express it: either NaN,
a signed infinity, or a finite real.  Only the operations the cone samplers
use are defined. -/
inductive JsNum where
  | nan : JsNum
  | inf : Bool → JsNum
  | num : ℝ → JsNum

/-- JS subtraction on `JsNum` (NaN propagates; `finite - ±∞ = ∓∞`;
`∞ - ∞ = NaN` for equal signs). -/
def JsNum.sub : JsNum → JsNum → JsNum
  | .nan, _ => .nan
  | _, .nan => .nan
  | .num a, .num b => .num (a - b)
  | .inf s, .num _ => .inf s
  | .num _, .inf s => .inf (!s)
  | .inf s, .inf t => if s = t then .nan else .inf s

/-- JS multiplication on `JsNum` (NaN propagates; `0 * ±∞ = NaN`). -/
def JsNum.mul : JsNum → JsNum → JsNum
  | .nan, _ => .nan
  | _, .nan => .nan
  | .num a, .num b => .num (a * b)
  | .inf s, .num b => if b = 0 then .nan else .inf (s = decide (0 < b))
  | .num a, .inf s => if a = 0 then .nan else .inf (s = decide (0 < a))
  | .inf s, .inf t => .inf (s = t)

/-- JS division on `JsNum`: `0 / 0 = NaN`, `a / 0 = ±∞` for `a ≠ 0`,
`finite / ±∞ = 0`, `∞ / ∞ = NaN`, NaN propagates. -/
def JsNum.div : JsNum → JsNum → JsNum
  | .nan, _ => .nan
  | _, .nan => .nan
  | .num a, .num b =>
      if b = 0 then (if a = 0 then .nan else .inf (decide (0 < a))) else .num (a / b)
  | .inf s, .num b => if b = 0 then .inf s else .inf (s = decide (0 < b))
  | .num _, .inf _ => .num 0
  | .inf _, .inf _ => .nan

/-- JS addition on `JsNum` (only needed for the `+ 0.1` of the surface sampler). -/
def JsNum.add : JsNum → JsNum → JsNum
  | .nan, _ => .nan
  | _, .nan => .nan
  | .num a, .num b => .num (a + b)
  | .inf s, .num _ => .inf s
  | .num _, .inf s => .inf s
  | .inf s, .inf t => if s = t then .inf s else .nan

/-- Model of `Math.sqrt` on `JsNum` (negative real argument gives NaN, `√+∞ = +∞`,
`√-∞ = NaN`). -/
def JsNum.jsSqrt : JsNum → JsNum
  | .nan => .nan
  | .inf s => if s then .inf true else .nan
  | .num a => if a < 0 then .nan else .num (Real.sqrt a)

/-- Model of `Math.cos` on `JsNum` (NaN on NaN or infinity). -/
def JsNum.jsCos : JsNum → JsNum
  | .num a => .num (Real.cos a)
  | _ => .nan

/-- Model of `Math.sin` on `JsNum` (NaN on NaN or infinity). -/
def JsNum.jsSin : JsNum → JsNum
  | .num a => .num (Real.sin a)
  | _ => .nan

/-- A point whose coordinates are JS numbers. -/
structure JsVec3 where
  x : JsNum
  y : JsNum
  z : JsNum

/-- Translation of `randomInCone` re-traced over `JsNum`: the identical arithmetic of the
source, but with the IEEE special values kept visible.  `height`,
`radiusBase` and the three draws are finite inputs. -/
def randomInConeJs (height radiusBase uy ut ur : ℝ) : JsVec3 :=
  let y := JsNum.mul (.num uy) (.num height)
  let rAtHeight := JsNum.mul (JsNum.sub (.num 1) (JsNum.div y (.num height))) (.num radiusBase)
  let theta := JsNum.mul (JsNum.mul (.num ut) (.num π)) (.num 2)
  let r := JsNum.mul (JsNum.jsSqrt (.num ur)) rAtHeight
  ⟨JsNum.mul r (JsNum.jsCos theta), y, JsNum.mul r (JsNum.jsSin theta)⟩

/-- Translation of `randomOnConeSurface` re-traced over `JsNum`. -/
def randomOnConeSurfaceJs (height radiusBase uy ut : ℝ) : JsVec3 :=
  let y := JsNum.mul (.num uy) (.num height)
  let rAtHeight := JsNum.mul (JsNum.sub (.num 1) (JsNum.div y (.num height))) (.num radiusBase)
  let theta := JsNum.mul (JsNum.mul (.num ut) (.num π)) (.num 2)
  let r := JsNum.add rAtHeight (.num 0.1)
  ⟨JsNum.mul r (JsNum.jsCos theta), y, JsNum.mul r (JsNum.jsSin theta)⟩

-- --- Concrete instances used to evaluate the model ----------------------------

/-- A concrete `Math.random` draw stream, every value in `[0, 1)`.  It makes
the dataset of needle 0 come out exactly as: `scatterPos = (14, 0, 0)`,
`treePos = (-17/5, 1/10, 0)`, `speed = 0.02` (the documented lower bound of
the needle speed range). -/
def crand : ℕ → ℝ
  | 0 => 0
  | 1 => 1 / 2
  | 2 => (14 / 15) ^ 3
  | 3 => 1 / 80
  | 4 => 1 / 2
  | 5 => (544 / 553) ^ 2
  | _ => 0

/-- The datasets built from the concrete stream `crand`. -/
def cData : Datasets :=
  { needleData := fun i => needleDatum crand i.val
    ornamentData := fun i => ornamentDatum crand i.val }

/-- A concrete ornament datum (all attributes inside the ranges of the builder). -/
def cOrnData : OrnamentData :=
  { scatterPos := ⟨0, 0, 0⟩, treePos := ⟨1, 2, 3⟩, color := ⟨1, 1, 1⟩,
    scale := 1 / 5, speed := 1 / 50 }

/-- A concrete buffer slot: position at the origin, a half-turn about the
vertical axis as orientation (a unit quaternion), unit scale. -/
def cTrans : Transform := ⟨⟨0, 0, 0⟩, ⟨0, 1, 0, 0⟩, ⟨1, 1, 1⟩⟩

/-- Needle index 0. -/
def i0 : Fin PARTICLE_COUNT := ⟨0, by decide⟩

/-- Frame schedule of the concrete scenario in the spec at 60 frames per
second: frames `0..299` run scattered (elapsed time `k/60`, covering the
first 5 simulated seconds), frames `300..479` run arranged (3 more
simulated seconds). -/
def cSched (k : ℕ) : FrameInput := ⟨decide (300 ≤ k), (k : ℝ) / 60, 1 / 60⟩

/-- The scene after `n` frames of the scenario schedule, starting from the
one-time setup pass. -/
def cRun : ℕ → SceneState
  | 0 => setupState cData
  | n + 1 => frameStep cData (cSched n).isTree (cSched n).time (cSched n).delta (cRun n)

/-- Runs `n` arranged-mode frame updates of a single needle with a fixed frame
delta `dt` and per-frame clock values `tau`. -/
def arrangedRun (tau : ℕ → ℝ) (dt : ℝ) (i : ℕ) (d : NeedleData) (c : Transform) :
    ℕ → Transform
  | 0 => c
  | n + 1 => needleStep true (tau n) dt i d (arrangedRun tau dt i d c n)

/-- The x coordinate of needle 0 after `n` frames of the scenario schedule. -/
def cX (n : ℕ) : ℝ := ((cRun n).needles i0).pos.x

/-- A concrete needle datum with the speed at the documented lower bound. -/
def wNeedle : NeedleData :=
  { scatterPos := ⟨0, 0, 0⟩, treePos := ⟨0, 0, 0⟩, scatterRot := ⟨0, 0, 0⟩,
    treeRot := ⟨0, 0, 0⟩, speed := 1 / 50 }

-- --- Theorems -----------------------------------------------------------------

/-- C1 (amended): each per-frame update linearly interpolates the current
buffer position of the element toward the computed target position, by the factor
`interpolationSpeed * 60 * dt` for needles but `interpolationSpeed * 50 * dt`
for ornaments. -/
theorem C1_position_lerp_factors (isTree : Bool) (time delta : ℝ) (i j : ℕ)
    (nd : NeedleData) (od : OrnamentData) (nc oc : Transform) :
    (needleStep isTree time delta i nd nc).pos
        = nc.pos.lerp (needleTargetPos isTree time i nd) (nd.speed * 60 * delta) ∧
    (ornamentStep isTree time delta j od oc).pos
        = oc.pos.lerp (ornamentTargetPos isTree time j od) (od.speed * 50 * delta) :=
  ⟨rfl, rfl⟩

/-- C1 counterexample: at a concrete input (arranged mode, `time = 0`,
`dt = 1`, ornament speed `1/50`), the ornament update does not equal a lerp
by the claimed factor `speed * 60 * dt`: the code moves the x coordinate
from `0` to `1` (factor `50`), the claim demands `6/5` (factor `60`). -/
theorem C1_ornament_factor_cex :
    (ornamentStep true 0 1 0 cOrnData cTrans).pos
      ≠ cTrans.pos.lerp (ornamentTargetPos true 0 0 cOrnData) (cOrnData.speed * 60 * 1) := by
  intro h
  have hx := congrArg Vector3.x h
  simp only [ornamentStep, ornamentTargetPos, cOrnData, cTrans, Vector3.lerp] at hx
  norm_num at hx

/-- C2 (amended): the per-frame update of each needle spherically interpolates its
buffer orientation toward the computed target orientation (the arranged
orientation when arranged, else the scattered orientation composed with a
vertical-axis spin of angle `0.1 * t`) by the factor
`interpolationSpeed * 60 * dt`; ornaments are not interpolated: their
orientation is set directly each frame to the vertical-axis rotation of
angle `0.5 * t + i`, discarding the buffer orientation. -/
theorem C2_orientation_update (isTree : Bool) (time delta : ℝ) (i j : ℕ)
    (nd : NeedleData) (od : OrnamentData) (nc oc : Transform) :
    (needleStep isTree time delta i nd nc).quat
        = nc.quat.slerp (needleTargetQuat isTree time nd) (nd.speed * 60 * delta) ∧
    (ornamentStep isTree time delta j od oc).quat
        = Quaternion.setFromEuler ⟨0, time * 0.5 + j, 0⟩ :=
  ⟨rfl, rfl⟩

/-- C2 counterexample: at a concrete input with `dt = 0` the claimed slerp by
factor `speed * 60 * dt = 0` would leave the orientation of the ornament unchanged
(the half-turn `(0,1,0,0)`), but the code sets it to the identity rotation
`(0,0,0,1)` computed from `t = 0`, `i = 0`. -/
theorem C2_ornament_slerp_cex :
    (ornamentStep true 0 0 0 cOrnData cTrans).quat
      ≠ Quaternion.slerp cTrans.quat
          (Quaternion.setFromEuler ⟨0, (0 : ℝ) * 0.5 + (0 : ℕ), 0⟩)
          (cOrnData.speed * 60 * 0) := by
  intro h
  have hy := congrArg Quaternion.y h
  simp only [ornamentStep, Quaternion.slerp, Quaternion.setFromEuler, cOrnData, cTrans,
    mul_zero, if_pos rfl] at hy
  norm_num at hy

/-- C4: every frame, the scale of each needle is set directly (no blending) to the
uniform constant 1 when arranged and 0.5 when scattered, while each
decomposed scale of each ornament is written back unchanged in both modes. -/
theorem C4_scale_snap (isTree : Bool) (time delta : ℝ) (i j : ℕ)
    (nd : NeedleData) (od : OrnamentData) (nc oc : Transform) :
    (needleStep isTree time delta i nd nc).scale
        = (if isTree then (⟨1, 1, 1⟩ : Vector3) else ⟨0.5, 0.5, 0.5⟩) ∧
    (ornamentStep isTree time delta j od oc).scale = oc.scale :=
  ⟨rfl, rfl⟩

/-- C9: the per-frame pass calls no random number generation — with the
ambient `Math.random` stream made an explicit parameter, two frame passes
run from identical buffer states with identical mode, clock and delta write
identical transforms, whatever the two streams are. -/
theorem C9_frame_deterministic (r₁ r₂ : ℕ → ℝ) (data : Datasets) (isTree : Bool)
    (time delta : ℝ) (s₁ s₂ : SceneState) (h : s₁ = s₂) :
    frameStepR r₁ data isTree time delta s₁ = frameStepR r₂ data isTree time delta s₂ := by
  rw [h]; rfl

/-- Witness for C9 at a concrete input: two different streams, the same
setup-pass state. -/
theorem C9_frame_deterministic_witness :
    frameStepR (fun _ => 0) cData true 0 (1 / 60) (setupState cData)
      = frameStepR (fun _ => 1 / 2) cData true 0 (1 / 60) (setupState cData) :=
  C9_frame_deterministic (fun _ => 0) (fun _ => 1 / 2) cData true 0 (1 / 60) _ _ rfl

/-- Helper: after any single whole-frame pass, the scale of a needle is one of the
two uniform mode constants. -/
theorem needle_scale_after_frame (data : Datasets) (isTree : Bool) (time delta : ℝ)
    (s : SceneState) (i : Fin PARTICLE_COUNT) :
    ((frameStep data isTree time delta s).needles i).scale = ⟨1, 1, 1⟩ ∨
    ((frameStep data isTree time delta s).needles i).scale = ⟨0.5, 0.5, 0.5⟩ := by
  cases isTree
  · exact Or.inr rfl
  · exact Or.inl rfl

/-- Helper: running any further frames preserves "scale is one of the two
uniform mode constants" for every needle. -/
theorem needle_scale_simulate (data : Datasets) (fs : List FrameInput) (s : SceneState)
    (h : ∀ i, (s.needles i).scale = ⟨1, 1, 1⟩ ∨ (s.needles i).scale = ⟨0.5, 0.5, 0.5⟩) :
    ∀ i, ((simulate data fs s).needles i).scale = ⟨1, 1, 1⟩ ∨
         ((simulate data fs s).needles i).scale = ⟨0.5, 0.5, 0.5⟩ := by
  induction fs generalizing s with
  | nil => exact h
  | cons f fs ih =>
      exact ih _ (fun i => needle_scale_after_frame data f.isTree f.time f.delta s i)

/-- C10: the setup pass writes the non-uniform scale `(0.1, 0.4, 0.1)` into
every needle slot, and after the first frame update (and any number of
further frames) the scale of every needle is one of the two uniform mode
constants, so the setup-time scale never persists. -/
theorem C10_setup_scale_overwritten (data : Datasets) (f : FrameInput)
    (fs : List FrameInput) (i : Fin PARTICLE_COUNT) :
    ((setupState data).needles i).scale = ⟨0.1, 0.4, 0.1⟩ ∧
    (((simulate data fs (frameStep data f.isTree f.time f.delta (setupState data))).needles i).scale
        = ⟨1, 1, 1⟩ ∨
     ((simulate data fs (frameStep data f.isTree f.time f.delta (setupState data))).needles i).scale
        = ⟨0.5, 0.5, 0.5⟩) :=
  ⟨rfl, needle_scale_simulate data fs _
      (fun j => needle_scale_after_frame data f.isTree f.time f.delta (setupState data) j) i⟩

/-- Helper: the squared length of a point built from spherical coordinates
collapses to the squared distance. -/
theorem spherical_norm_sq (r a b : ℝ) :
    (r * Real.sin a * Real.cos b) ^ 2 + (r * Real.sin a * Real.sin b) ^ 2 +
      (r * Real.cos a) ^ 2 = r ^ 2 := by
  have h1 := Real.sin_sq_add_cos_sq a
  have h2 := Real.sin_sq_add_cos_sq b
  linear_combination (r ^ 2 * Real.sin a ^ 2) * h2 + r ^ 2 * h1

/-- Helper: the cube-root draw really is a cube root on `[0, 1)` inputs. -/
theorem jsCbrt_cube (w : ℝ) (hw : 0 ≤ w) : jsCbrt w ^ (3 : ℕ) = w := by
  rw [jsCbrt, ← Real.rpow_natCast (w ^ ((1 : ℝ) / 3)) 3, ← Real.rpow_mul hw]
  norm_num

/-- C6: `randomInSphere R u v w` is the point with azimuth `2πu`, inclination
`arccos(2v−1)` and distance `cbrt(w)·R` from the origin; hence it lies
strictly inside the sphere of radius `R` and the cube of its distance equals
`w·R³`. -/
theorem C6_sphere_sampler (R u v w : ℝ) (hR : 0 < R) (hw0 : 0 ≤ w) (hw1 : w < 1) :
    randomInSphere R u v w
        = sphericalPoint (jsCbrt w * R) (2 * π * u) (Real.arccos (2 * v - 1)) ∧
    Real.sqrt ((randomInSphere R u v w).x ^ 2 + (randomInSphere R u v w).y ^ 2 +
        (randomInSphere R u v w).z ^ 2) = jsCbrt w * R ∧
    Real.sqrt ((randomInSphere R u v w).x ^ 2 + (randomInSphere R u v w).y ^ 2 +
        (randomInSphere R u v w).z ^ 2) < R ∧
    Real.sqrt ((randomInSphere R u v w).x ^ 2 + (randomInSphere R u v w).y ^ 2 +
        (randomInSphere R u v w).z ^ 2) ^ 3 = w * R ^ 3 := by
  have hcb0 : 0 ≤ jsCbrt w := Real.rpow_nonneg hw0 _
  have hr0 : 0 ≤ jsCbrt w * R := mul_nonneg hcb0 hR.le
  have hsum : (randomInSphere R u v w).x ^ 2 + (randomInSphere R u v w).y ^ 2 +
      (randomInSphere R u v w).z ^ 2 = (jsCbrt w * R) ^ 2 := by
    simp only [randomInSphere]
    exact spherical_norm_sq _ _ _
  have hdist : Real.sqrt ((randomInSphere R u v w).x ^ 2 + (randomInSphere R u v w).y ^ 2 +
      (randomInSphere R u v w).z ^ 2) = jsCbrt w * R := by
    rw [hsum, Real.sqrt_sq hr0]
  refine ⟨rfl, hdist, ?_, ?_⟩
  · rw [hdist]
    have hlt : jsCbrt w < 1 := Real.rpow_lt_one hw0 hw1 (by norm_num)
    calc jsCbrt w * R < 1 * R := by exact mul_lt_mul_of_pos_right hlt hR
    _ = R := one_mul R
  · rw [hdist, mul_pow, jsCbrt_cube w hw0]

/-- Witness for C6 at the concrete input `R = 1`, `u = 0`, `v = 1/2`,
`w = 1/8` (so the sampled distance is `1/2`). -/
theorem C6_sphere_sampler_witness :
    randomInSphere 1 0 (1 / 2) (1 / 8)
        = sphericalPoint (jsCbrt (1 / 8) * 1) (2 * π * 0) (Real.arccos (2 * (1 / 2) - 1)) ∧
    Real.sqrt ((randomInSphere 1 0 (1 / 2) (1 / 8)).x ^ 2 +
        (randomInSphere 1 0 (1 / 2) (1 / 8)).y ^ 2 +
        (randomInSphere 1 0 (1 / 2) (1 / 8)).z ^ 2) = jsCbrt (1 / 8) * 1 ∧
    Real.sqrt ((randomInSphere 1 0 (1 / 2) (1 / 8)).x ^ 2 +
        (randomInSphere 1 0 (1 / 2) (1 / 8)).y ^ 2 +
        (randomInSphere 1 0 (1 / 2) (1 / 8)).z ^ 2) < 1 ∧
    Real.sqrt ((randomInSphere 1 0 (1 / 2) (1 / 8)).x ^ 2 +
        (randomInSphere 1 0 (1 / 2) (1 / 8)).y ^ 2 +
        (randomInSphere 1 0 (1 / 2) (1 / 8)).z ^ 2) ^ 3 = 1 / 8 * 1 ^ 3 :=
  C6_sphere_sampler 1 0 (1 / 2) (1 / 8) (by norm_num) (by norm_num) (by norm_num)

/-- C7: every point returned by `randomInCone h rb` satisfies `0 ≤ y < h`,
and its horizontal distance from the vertical axis is at most the
cross-sectional radius `rb * (1 - y/h)` at its height. -/
theorem C7_cone_sampler (h rb uy ut ur : ℝ) (hh : 0 < h) (hrb : 0 < rb)
    (hy0 : 0 ≤ uy) (hy1 : uy < 1) (hr0 : 0 ≤ ur) (hr1 : ur < 1) :
    0 ≤ (randomInCone h rb uy ut ur).y ∧
    (randomInCone h rb uy ut ur).y < h ∧
    Real.sqrt ((randomInCone h rb uy ut ur).x ^ 2 + (randomInCone h rb uy ut ur).z ^ 2)
      ≤ rb * (1 - (randomInCone h rb uy ut ur).y / h) := by
  have hyh : (randomInCone h rb uy ut ur).y = uy * h := rfl
  have hdiv : uy * h / h = uy := mul_div_cancel_right₀ uy hh.ne'
  have hAt0 : 0 ≤ (1 - uy * h / h) * rb := by
    rw [hdiv]
    have : 0 ≤ 1 - uy := by linarith
    positivity
  refine ⟨?_, ?_, ?_⟩
  · rw [hyh]; positivity
  · rw [hyh]
    calc uy * h < 1 * h := mul_lt_mul_of_pos_right hy1 hh
    _ = h := one_mul h
  · have hsum : (randomInCone h rb uy ut ur).x ^ 2 + (randomInCone h rb uy ut ur).z ^ 2
        = (Real.sqrt ur * ((1 - uy * h / h) * rb)) ^ 2 := by
      simp only [randomInCone]
      have h2 := Real.sin_sq_add_cos_sq (ut * π * 2)
      linear_combination ((Real.sqrt ur * ((1 - uy * h / h) * rb)) ^ 2) * h2
    rw [hsum, Real.sqrt_sq (by positivity)]
    rw [hyh, hdiv]
    have hs1 : Real.sqrt ur ≤ 1 := by
      rw [show (1 : ℝ) = Real.sqrt 1 from (Real.sqrt_one).symm]
      exact Real.sqrt_le_sqrt hr1.le
    have h1uy : 0 ≤ 1 - uy := by linarith
    calc Real.sqrt ur * ((1 - uy) * rb) ≤ 1 * ((1 - uy) * rb) := by
          exact mul_le_mul_of_nonneg_right hs1 (by positivity)
    _ = rb * (1 - uy) := by ring

/-- Witness for C7 at the concrete input `h = 8`, `rb = 3.5`, all draws at
the bottom of their ranges. -/
theorem C7_cone_sampler_witness :
    0 ≤ (randomInCone 8 3.5 0 0 0).y ∧
    (randomInCone 8 3.5 0 0 0).y < 8 ∧
    Real.sqrt ((randomInCone 8 3.5 0 0 0).x ^ 2 + (randomInCone 8 3.5 0 0 0).z ^ 2)
      ≤ 3.5 * (1 - (randomInCone 8 3.5 0 0 0).y / 8) :=
  C7_cone_sampler 8 3.5 0 0 0 (by norm_num) (by norm_num) (by norm_num) (by norm_num)
    (by norm_num) (by norm_num)

/-- C5 (the code evaluated at the failing input): with `height = 0` both cone
samplers return NaN in the x and z coordinates — the height normalization
computes `y / height = 0 / 0 = NaN`, which propagates — and the source
contains no configuration-time validation that could reject the input. -/
theorem C5_height_zero_nan :
    (randomInConeJs 0 3.5 (1 / 2) (1 / 2) (1 / 2)).x = JsNum.nan ∧
    (randomInConeJs 0 3.5 (1 / 2) (1 / 2) (1 / 2)).z = JsNum.nan ∧
    (randomOnConeSurfaceJs 0 3.5 (1 / 2) (1 / 2)).x = JsNum.nan ∧
    (randomOnConeSurfaceJs 0 3.5 (1 / 2) (1 / 2)).z = JsNum.nan := by
  refine ⟨?_, ?_, ?_, ?_⟩ <;>
    simp [randomInConeJs, randomOnConeSurfaceJs, JsNum.mul, JsNum.div, JsNum.sub,
      JsNum.add, JsNum.jsSqrt, JsNum.jsCos, JsNum.jsSin]

/-- Helper: a whole-frame pass never writes the color buffer. -/
theorem frame_keeps_colors (data : Datasets) (isTree : Bool) (time delta : ℝ)
    (s : SceneState) :
    (frameStep data isTree time delta s).ornamentColors = s.ornamentColors := rfl

/-- Helper: any sequence of frames leaves the color buffer untouched. -/
theorem simulate_keeps_colors (data : Datasets) (fs : List FrameInput) (s : SceneState) :
    (simulate data fs s).ornamentColors = s.ornamentColors := by
  induction fs generalizing s with
  | nil => rfl
  | cons f fs ih => exact ih (frameStep data f.isTree f.time f.delta s)

/-- C8: the ornament palette has exactly 3 fixed values and every setup-time
color draw lands on one of them; the per-frame update never writes the color
buffer, so after any number of simulated frames and mode changes the colors
are identical to what setup wrote. -/
theorem C8_colors_immutable (data : Datasets) (fs : List FrameInput) (s : SceneState)
    (u : ℝ) (h0 : 0 ≤ u) (h1 : u < 1) :
    (simulate data fs s).ornamentColors = s.ornamentColors ∧
    ornamentPalette.length = 3 ∧
    (ornamentColorDraw u = ⟨1, 215 / 255, 0⟩ ∨
     ornamentColorDraw u = ⟨1, 51 / 255, 102 / 255⟩ ∨
     ornamentColorDraw u = ⟨1, 1, 1⟩) := by
  refine ⟨simulate_keeps_colors data fs s, rfl, ?_⟩
  have hcast : ((ornamentPalette.length : ℕ) : ℝ) = 3 := by norm_num [ornamentPalette]
  unfold ornamentColorDraw
  rw [hcast]
  have h3 : (0 : ℤ) ≤ ⌊u * 3⌋ := Int.floor_nonneg.mpr (by positivity)
  have h4 : ⌊u * 3⌋ < 3 := by
    rw [Int.floor_lt]
    push_cast
    linarith
  set n := ⌊u * 3⌋ with hn
  interval_cases n
  · exact Or.inl rfl
  · exact Or.inr (Or.inl rfl)
  · exact Or.inr (Or.inr rfl)

/-- Witness for C8 at a concrete input: the scenario scene, one frame, the
draw `u = 0` (which picks the gold palette entry). -/
theorem C8_colors_immutable_witness :
    (simulate cData [⟨true, 0, 1 / 60⟩] (setupState cData)).ornamentColors
        = (setupState cData).ornamentColors ∧
    ornamentPalette.length = 3 ∧
    (ornamentColorDraw 0 = ⟨1, 215 / 255, 0⟩ ∨
     ornamentColorDraw 0 = ⟨1, 51 / 255, 102 / 255⟩ ∨
     ornamentColorDraw 0 = ⟨1, 1, 1⟩) :=
  C8_colors_immutable cData [⟨true, 0, 1 / 60⟩] (setupState cData) 0 (by norm_num)
    (by norm_num)

/-- Helper: a three.js lerp toward a fixed target scales the distance to that
target by `|1 - alpha|` exactly. -/
theorem lerp_distance (p T : Vector3) (alpha : ℝ) :
    (p.lerp T alpha).distanceTo T = |1 - alpha| * p.distanceTo T := by
  unfold Vector3.lerp Vector3.distanceTo
  have he : (p.x + (T.x - p.x) * alpha - T.x) ^ 2 + (p.y + (T.y - p.y) * alpha - T.y) ^ 2 +
      (p.z + (T.z - p.z) * alpha - T.z) ^ 2
      = (1 - alpha) ^ 2 * ((p.x - T.x) ^ 2 + (p.y - T.y) ^ 2 + (p.z - T.z) ^ 2) := by
    ring
  rw [he, Real.sqrt_mul (sq_nonneg _), Real.sqrt_sq_eq_abs]

/-- Helper: in arranged mode the per-frame update of a needle shrinks its distance
to `treePos` by the exact factor `|1 - speed * 60 * dt|`. -/
theorem needleStep_arranged_dist (t dt : ℝ) (i : ℕ) (d : NeedleData) (c : Transform) :
    ((needleStep true t dt i d c).pos).distanceTo d.treePos
      = |1 - d.speed * 60 * dt| * (c.pos.distanceTo d.treePos) := by
  have hp : (needleStep true t dt i d c).pos = c.pos.lerp d.treePos (d.speed * 60 * dt) := rfl
  rw [hp, lerp_distance]

/-- Helper: `n` arranged frames at 60 fps shrink the distance of a needle to its
arranged position to at most `0.98 ^ n` of the starting distance, for any
speed in the range of the builder. -/
theorem arrangedRun_dist (tau : ℕ → ℝ) (i : ℕ) (d : NeedleData) (c : Transform)
    (h1 : 0.02 ≤ d.speed) (h2 : d.speed ≤ 1) (n : ℕ) :
    ((arrangedRun tau (1 / 60) i d c n).pos).distanceTo d.treePos
      ≤ 0.98 ^ n * (c.pos.distanceTo d.treePos) := by
  induction n with
  | zero => simp [arrangedRun]
  | succ n ih =>
      have hstep := needleStep_arranged_dist (tau n) (1 / 60) i d
        (arrangedRun tau (1 / 60) i d c n)
      have habs : |1 - d.speed * 60 * (1 / 60)| ≤ 0.98 := by
        rw [abs_le]
        constructor <;> nlinarith
      have hd0 : 0 ≤ ((arrangedRun tau (1 / 60) i d c n).pos).distanceTo d.treePos :=
        Real.sqrt_nonneg _
      have hc0 : 0 ≤ c.pos.distanceTo d.treePos := Real.sqrt_nonneg _
      calc ((arrangedRun tau (1 / 60) i d c (n + 1)).pos).distanceTo d.treePos
          = |1 - d.speed * 60 * (1 / 60)| *
            (((arrangedRun tau (1 / 60) i d c n).pos).distanceTo d.treePos) := hstep
      _ ≤ 0.98 * (0.98 ^ n * (c.pos.distanceTo d.treePos)) := by
          apply mul_le_mul habs ih hd0 (by norm_num)
      _ = 0.98 ^ (n + 1) * (c.pos.distanceTo d.treePos) := by ring

/-- C3 (amended): once the mode is ARRANGED, 3 simulated seconds of 60 fps
frame updates shrink the distance of every needle to its `arrangedPosition` to at
most `0.98 ^ 180 < 0.03` of its distance when the mode flipped — the claimed
absolute `0.05` bound does not hold for all elements — and its scale equals
exactly the arranged-mode constant 1, with no blending on scale. -/
theorem C3_arranged_convergence (tau : ℕ → ℝ) (i : ℕ) (d : NeedleData) (c : Transform)
    (h1 : 0.02 ≤ d.speed) (h2 : d.speed ≤ 1) :
    ((arrangedRun tau (1 / 60) i d c 180).pos).distanceTo d.treePos
      ≤ 0.98 ^ (180 : ℕ) * (c.pos.distanceTo d.treePos) ∧
    (arrangedRun tau (1 / 60) i d c 180).scale = ⟨1, 1, 1⟩ :=
  ⟨arrangedRun_dist tau i d c h1 h2 180, rfl⟩

/-- Witness for the amended C3 theorem at a concrete input: a needle with the
lower-bound speed `0.02`, starting one unit from its arranged position. -/
theorem C3_arranged_convergence_witness :
    ((arrangedRun (fun _ => 0) (1 / 60) 0 wNeedle cTrans 180).pos).distanceTo wNeedle.treePos
      ≤ 0.98 ^ (180 : ℕ) * (cTrans.pos.distanceTo wNeedle.treePos) ∧
    (arrangedRun (fun _ => 0) (1 / 60) 0 wNeedle cTrans 180).scale = ⟨1, 1, 1⟩ :=
  C3_arranged_convergence (fun _ => 0) 0 wNeedle cTrans (by norm_num [wNeedle])
    (by norm_num [wNeedle])

/-- Helper: the cube-root draw inverts a cube on nonnegative inputs. -/
theorem jsCbrt_pow3 (x : ℝ) (hx : 0 ≤ x) : jsCbrt (x ^ (3 : ℕ)) = x := by
  rw [jsCbrt, ← Real.rpow_natCast x 3, ← Real.rpow_mul hx]
  norm_num

/-- Helper: needle 0 of the concrete dataset has `scatterPosition.x = 14`. -/
theorem cneedle0_scatter_x : (cData.needleData i0).scatterPos.x = 14 := by
  show jsCbrt (((14 : ℝ) / 15) ^ (3 : ℕ)) * 15 *
      Real.sin (Real.arccos (2 * (1 / 2) - 1)) * Real.cos (2 * π * 0) = 14
  rw [jsCbrt_pow3 _ (by norm_num)]
  norm_num [Real.arccos_zero, Real.sin_pi_div_two, Real.cos_zero]

/-- Helper: needle 0 of the concrete dataset has `arrangedPosition.x = -17/5`. -/
theorem cneedle0_tree_x : (cData.needleData i0).treePos.x = -(17 / 5) := by
  show Real.sqrt (((544 : ℝ) / 553) ^ 2) * ((1 - 1 / 80 * 8 / 8) * 3.5) *
      Real.cos (1 / 2 * π * 2) = -(17 / 5)
  rw [Real.sqrt_sq (by norm_num), show (1 : ℝ) / 2 * π * 2 = π by ring, Real.cos_pi]
  norm_num

/-- Helper: needle 0 of the concrete dataset has the lower-bound speed. -/
theorem cneedle0_speed : (cData.needleData i0).speed = 1 / 50 := by
  show (0.02 : ℝ) + 0 * 0.04 = 1 / 50
  norm_num

/-- Helper: one scenario frame unfolds to one needle step for needle 0. -/
theorem cRun_needle0_succ (k : ℕ) :
    (cRun (k + 1)).needles i0
      = needleStep (decide (300 ≤ k)) ((k : ℝ) / 60) (1 / 60) 0
          (cData.needleData i0) ((cRun k).needles i0) := rfl

/-- Helper: the scattered-phase recurrence of the x coordinate of needle 0. -/
theorem cX_scatter_step (k : ℕ) (hk : k < 300) :
    cX (k + 1) = cX k + ((14 + Real.sin ((k : ℝ) / 60) * 0.5) - cX k) * (1 / 50) := by
  have hb : decide (300 ≤ k) = false := by
    simp only [decide_eq_false_iff_not]
    omega
  unfold cX
  rw [cRun_needle0_succ, hb]
  simp only [needleStep, needleTargetPos, Vector3.lerp, Vector3.addScalar,
    Bool.false_eq_true, if_false, Nat.cast_zero, add_zero]
  rw [cneedle0_scatter_x, cneedle0_speed]
  norm_num

/-- Helper: the arranged-phase recurrence of the x coordinate of needle 0. -/
theorem cX_tree_step (k : ℕ) (hk : 300 ≤ k) :
    cX (k + 1) = cX k + (-(17 / 5) - cX k) * (1 / 50) := by
  have hb : decide (300 ≤ k) = true := by
    simp only [decide_eq_true_eq]
    omega
  unfold cX
  rw [cRun_needle0_succ, hb]
  simp only [needleStep, needleTargetPos, Vector3.lerp, if_true]
  rw [cneedle0_tree_x, cneedle0_speed]
  norm_num

/-- Helper: during the 5 scattered seconds, the x coordinate of needle 0 climbs at
least as fast as the bob-free lower envelope `13.5 * (1 - 0.98 ^ n)`. -/
theorem cX_phaseA (n : ℕ) (hn : n ≤ 300) : 13.5 * (1 - 0.98 ^ n) ≤ cX n := by
  induction n with
  | zero =>
      have h0 : cX 0 = 0 := rfl
      norm_num [h0]
  | succ n ih =>
      have hx := ih (by omega)
      have hstep := cX_scatter_step n (by omega)
      have hsin : -1 ≤ Real.sin ((n : ℝ) / 60) := Real.neg_one_le_sin _
      rw [hstep, pow_succ]
      linarith

/-- Helper: after the flip, the x error of needle 0 contracts by exactly `0.98`
per frame. -/
theorem cX_phaseB (m : ℕ) : cX (300 + m) + 17 / 5 = 0.98 ^ m * (cX 300 + 17 / 5) := by
  induction m with
  | zero => simp
  | succ m ih =>
      have hstep := cX_tree_step (300 + m) (by omega)
      rw [show 300 + (m + 1) = (300 + m) + 1 from rfl, hstep, pow_succ]
      linear_combination (49 / 50 : ℝ) * ih

/-- C3 counterexample: for the concrete builder dataset `cData` (every draw
in `[0,1)`, needle 0 at the documented speed lower bound `0.02` with
`scatterPosition = (14,0,0)` and `arrangedPosition = (-3.4, 0.1, 0)`), running
the scenario of the spec at 60 fps — 300 scattered frames, then 180 arranged
frames — leaves needle 0 more than `0.05` from its arranged position (in
fact more than `0.33` away). -/
theorem C3_scenario_cex :
    ¬ ((((cRun 480).needles i0).pos).distanceTo ((cData.needleData i0).treePos) ≤ 0.05) := by
  intro hle
  have hA : 13.5 * (1 - (0.98 : ℝ) ^ (300 : ℕ)) ≤ cX 300 := cX_phaseA 300 le_rfl
  have hB : cX 480 + 17 / 5 = 0.98 ^ (180 : ℕ) * (cX 300 + 17 / 5) := cX_phaseB 180
  have hub : (0.98 : ℝ) ^ (300 : ℕ) ≤ 1 / 100 := by norm_num
  have hlb : (1 : ℝ) / 50 ≤ 0.98 ^ (180 : ℕ) := by norm_num
  have h1 : (16.765 : ℝ) ≤ cX 300 + 17 / 5 := by linarith
  have h2 : (1 / 50 : ℝ) * 16.765 ≤ cX 480 + 17 / 5 := by
    rw [hB]
    exact mul_le_mul hlb h1 (by norm_num) (by positivity)
  have hxval : cX 480 = ((cRun 480).needles i0).pos.x := rfl
  set P := ((cRun 480).needles i0).pos with hP
  have htx : (cData.needleData i0).treePos.x = -(17 / 5) := cneedle0_tree_x
  have hdx : (0.3353 : ℝ) ≤ P.x - (cData.needleData i0).treePos.x := by
    rw [htx]
    have h3 : (1 / 50 : ℝ) * 16.765 ≤ P.x + 17 / 5 := hxval ▸ h2
    linarith
  have hmono : Real.sqrt ((P.x - (cData.needleData i0).treePos.x) ^ 2)
      ≤ P.distanceTo (cData.needleData i0).treePos := by
    unfold Vector3.distanceTo
    apply Real.sqrt_le_sqrt
    nlinarith [sq_nonneg (P.y - (cData.needleData i0).treePos.y),
      sq_nonneg (P.z - (cData.needleData i0).treePos.z)]
  rw [Real.sqrt_sq_eq_abs] at hmono
  have habs := le_abs_self (P.x - (cData.needleData i0).treePos.x)
  linarith

end

end InteractiveTree
